import Mathlib

/-!
Verification of the transform-composition core of `fastai/vision/transform.py`
against its natural-language specification.

Shallow embedding conventions:
* Tensors of pixels are total functions `ℕ → ℕ → ℕ → ℚ` (channel, row, column)
  together with explicitly tracked dimensions; machine floats are modelled as
  exact rationals, so every statement proved here is about the algorithmic
  content of the code, not about float rounding.
* Python object mutation is modelled by explicit state passing: operations
  that mutate an `Image` in Python return the updated `Image`; accessors with
  side effects (`flow`, `affine_mat`, `logit_px`, `px`) return the value read
  together with the updated object.
* The process-wide random source (`random.uniform`) is modelled as an explicit
  stream `ℕ → ℚ` of draws of `random()`; CPython's `random.uniform(a, b)`
  computes `a + (b - a) * random()` with `random() ∈ [0, 1)`.
* External torch functions that the code calls but does not define
  (`Tensor.sigmoid_`, the `log` used by `logit_`, and `F.grid_sample`'s
  interpolated path) are parameters, bundled in `TorchEnv`.
* Python `raise`/`assert` sites are modelled with `Except TransformError`;
  functions whose source contains no raise site are total.
-/

/-- A pixel buffer: channel → row → column → value.  Out-of-range indices are
never read by the embedded code (it clamps or masks first). -/
abbrev PxFn : Type := ℕ → ℕ → ℕ → ℚ

/-- A 3×3 homogeneous affine matrix (`AffineMatrix` in the source). -/
abbrev Mat3 : Type := Matrix (Fin 3) (Fin 3) ℚ

/-- The stream of pending `random()` draws: the process-wide random source. -/
abbrev RandSrc : Type := ℕ → ℚ

/-- Error taxonomy of the spec (§7).  The source raises these as
`AssertionError`/`TypeError`; the spec names are used here. -/
inductive TransformError where
  | shapeMismatch
  | invalidState
  | unsupportedConfig
  | missingParameter
deriving DecidableEq, Repr

/-- A flow field: an H×W grid of normalized sample coordinates, `(x, y)` pairs
(the source stores them in a tensor of shape `(1, H, W, 2)` with x at index 0
and y at index 1). -/
structure FlowF where
  fh : ℕ
  fw : ℕ
  coords : ℕ → ℕ → ℚ × ℚ

/-- `sample_kwargs` of an `Image`: the keyword arguments later splatted into
`grid_sample`.  `none` means the key is absent, so `grid_sample`'s own default
applies. -/
structure SampleKw where
  mode : Option String
  padding_mode : Option String

/-- External torch functions used but not defined by the source file. -/
structure TorchEnv where
  /-- `Tensor.sigmoid_` applied elementwise. -/
  sigmoid : ℚ → ℚ
  /-- the elementwise `log` used by `logit_`. -/
  log : ℚ → ℚ
  /-- `F.grid_sample` (the interpolated path): input dims, pixels, coords,
  mode, padding_mode. -/
  F_grid_sample : ℕ → ℕ → PxFn → FlowF → String → String → PxFn

/-- `torch.linspace (-1) 1 n` at index `k` when `n > 1`, else the single point
`-1` — the per-axis coordinate values built by `affine_grid`. -/
def linVal (n k : ℕ) : ℚ :=
  if 1 < n then -1 + 2 * (k : ℚ) / ((n : ℚ) - 1) else -1

/-- `affine_grid(size)` for `size = (c, h, w)`: the identity sampling grid,
x linearly spaced in [-1,1] across columns and y across rows (the channel
count does not enter the grid, as in the source). -/
def affine_grid (c h w : ℕ) : FlowF :=
  FlowF.mk h w (fun i j => (linVal w j, linVal h i))

/-- `affine_mult(c, m)`: `None` is the identity; otherwise each coordinate
pair becomes `m[:2,2] + (x, y) @ m[:2,:2].T`. -/
def affine_mult (c : FlowF) (m : Option Mat3) : FlowF :=
  match m with
  | none => c
  | some m =>
    FlowF.mk c.fh c.fw (fun i j =>
      let xy := c.coords i j
      (m 0 0 * xy.1 + m 0 1 * xy.2 + m 0 2,
       m 1 0 * xy.1 + m 1 1 * xy.2 + m 1 2))

/-- `Tensor.round_`: round half to even, torch's rounding convention. -/
def roundHE (q : ℚ) : ℤ :=
  let f := ⌊q⌋
  let r := q - (f : ℚ)
  if r < 1 / 2 then f
  else if 1 / 2 < r then f + 1
  else if f % 2 = 0 then f else f + 1

/-- `grid_sample_nearest(input, coords, padding_mode)` for an input of spatial
size `h × w`.  The source's `if padding_mode=='border': coords.clamp(-1,1)`
calls the *non-in-place* `clamp`, whose result is discarded, so that line has
no effect and is not represented.  Coordinates are scaled by `(x+1)*w/2` and
`(y+1)*h/2`, rounded, masked (mask computed before clamping) when
`padding_mode=='zeros'`, then clamped into range and used to index the input;
masked positions of the result are zeroed. -/
def grid_sample_nearest (h w : ℕ) (input : PxFn) (coords : FlowF)
    (padding_mode : String) : PxFn :=
  fun ch i j =>
    let xy := coords.coords i j
    let xi : ℤ := roundHE ((xy.1 + 1) * (w : ℚ) / 2)
    let yi : ℤ := roundHE ((xy.2 + 1) * (h : ℚ) / 2)
    if padding_mode = "zeros" ∧ (xi < 0 ∨ yi < 0 ∨ (w : ℤ) ≤ xi ∨ (h : ℤ) ≤ yi)
    then 0
    else input ch (max 0 (min yi ((h : ℤ) - 1))).toNat
                  (max 0 (min xi ((w : ℤ) - 1))).toNat

/-- `grid_sample(x, coords, mode='bilinear', padding_mode='reflect')`:
renames `reflect` to `reflection`, dispatches `nearest` to
`grid_sample_nearest` and everything else to torch's `F.grid_sample`.
The source contains no raise site on any path of this function. -/
def grid_sample (env : TorchEnv) (h w : ℕ) (x : PxFn) (coords : FlowF)
    (kw : SampleKw) : PxFn :=
  let mode := kw.mode.getD "bilinear"
  let pm0 := kw.padding_mode.getD "reflect"
  let pm := if pm0 = "reflect" then "reflection" else pm0
  if mode = "nearest" then grid_sample_nearest h w x coords pm
  else env.F_grid_sample h w x coords mode pm

/-- The Resampler contract exactly as the spec words it (§4.5, §7): the
nearest + reflect combination "has no defined semantics" and "fails with
UnsupportedConfig if requested"; other combinations behave as the code does.
Declared only to compare the spec's words with the source's `grid_sample`. -/
def grid_sample_spec (env : TorchEnv) (h w : ℕ) (x : PxFn) (coords : FlowF)
    (kw : SampleKw) : Except TransformError PxFn :=
  let mode := kw.mode.getD "bilinear"
  let pm := kw.padding_mode.getD "reflect"
  if mode = "nearest" ∧ pm = "reflect" then .error .unsupportedConfig
  else .ok (grid_sample env h w x coords kw)

/-- `Transform.order`, the base class default. -/
def Transform_base_order : Int := 0
/-- `TfmLighting.order = 8`. -/
def TfmLighting_order : Int := 8
/-- `TfmAffine.order = 5`. -/
def TfmAffine_order : Int := 5
/-- `TfmPixel.order = 10`. -/
def TfmPixel_order : Int := 10
/-- `TfmCoord.order = 4`. -/
def TfmCoord_order : Int := 4
/-- `pad` is registered with `partial(TfmPixel, order=-10)`, so the `pad`
descriptor's order is `-10`. -/
def pad_order : Int := -10

/-- The Lazy Image (`Image` in the source).  `c`, `h`, `w` are the dimensions
of `_px`.  Fields mirror `Image.__init__`: pixel buffer, optional logit
buffer, optional flow field, optional affine matrix, and `sample_kwargs`. -/
structure Image where
  c : ℕ
  h : ℕ
  w : ℕ
  _px : PxFn
  _logit_px : Option PxFn
  _flow : Option FlowF
  _affine_mat : Option Mat3
  sample_kwargs : SampleKw

/-- The `Image.flow` property getter.  It has side effects: if `_flow` is
absent it is initialized to `affine_grid(shape)`; if `_affine_mat` is present
it is folded into `_flow` with `affine_mult` and then cleared.  Returns the
flow read together with the mutated image. -/
def Image.flowGet (img : Image) : FlowF × Image :=
  let f0 := match img._flow with
    | some f => f
    | none => affine_grid img.c img.h img.w
  match img._affine_mat with
  | some m =>
    let f1 := affine_mult f0 (some m)
    (f1, { img with _flow := some f1, _affine_mat := none })
  | none => (f0, { img with _flow := some f0 })

/-- `Image.refresh`: flushes a pending logit buffer through `sigmoid_` into
`_px`, then—if an affine matrix or a flow field is pending—resamples `_px`
through `self.flow` (which folds the matrix into the flow and clears the
matrix) with `grid_sample(**sample_kwargs)`, clears `sample_kwargs` and
clears the flow.  The pixel dimensions become the flow's dimensions. -/
def Image.refresh (env : TorchEnv) (img : Image) : Image :=
  let img1 := match img._logit_px with
    | some lp => { img with _px := fun ch i j => env.sigmoid (lp ch i j),
                            _logit_px := none }
    | none => img
  if img1._affine_mat.isSome || img1._flow.isSome then
    let fi := img1.flowGet
    let img2 := fi.2
    { img2 with
      _px := grid_sample env img2.h img2.w img2._px fi.1 img2.sample_kwargs,
      h := fi.1.fh, w := fi.1.fw,
      sample_kwargs := SampleKw.mk none none,
      _flow := none }
  else img1

/-- The `Image.px` property getter: refresh, then read `_px`. -/
def Image.pxGet (env : TorchEnv) (img : Image) : PxFn × Image :=
  let r := img.refresh env
  (r._px, r)

/-- The `Image.affine_mat` property getter: initializes to `torch.eye(3)`
when absent. -/
def Image.affineMatGet (img : Image) : Mat3 × Image :=
  match img._affine_mat with
  | some m => (m, img)
  | none => (1, { img with _affine_mat := some 1 })

/-- The `Image.logit_px` property getter: when absent, computed as
`logit_(self.px)` (reading `px` refreshes the image).  `logit_` mutates the
pixel tensor in place in torch, but no reachable source path reads `_px`
again before the next refresh overwrites it, so the aliasing is not
observable and `_px` is left unchanged here. -/
def Image.logitPxGet (env : TorchEnv) (img : Image) : PxFn × Image :=
  match img._logit_px with
  | some lp => (lp, img)
  | none =>
    let pg := img.pxGet env
    let lp : PxFn := fun ch i j => env.log (1 / pg.1 ch i j - 1) * (-1)
    (lp, { pg.2 with _logit_px := some lp })

/-- `Image.lighting(func, ...)`: `logit_px = func(logit_px)`. -/
def Image.lighting (env : TorchEnv) (img : Image) (func : PxFn → PxFn) :
    Image :=
  let lg := img.logitPxGet env
  { lg.2 with _logit_px := some (func lg.1) }

/-- `Image.pixel(func, ...)`: `px = func(px)` (reading `px` refreshes). -/
def Image.pixel (env : TorchEnv) (img : Image) (func : PxFn → PxFn) : Image :=
  let pg := img.pxGet env
  { pg.2 with _px := func pg.1 }

/-- `Image.coord(func, ...)`: `flow = func(flow, shape)` (reading `flow`
folds and clears a pending affine matrix). -/
def Image.coord (img : Image) (func : FlowF → ℕ × ℕ × ℕ → FlowF) : Image :=
  let fg := img.flowGet
  { fg.2 with _flow := some (func fg.1 (fg.2.c, fg.2.h, fg.2.w)) }

/-- `Image.affine(func, ...)`: with `m` the matrix computed by the transform
function, `affine_mat = affine_mat @ m` (the getter initializes the matrix to
the identity when absent). -/
def Image.affine (img : Image) (m : Mat3) : Image :=
  let am := img.affineMatGet
  { am.2 with _affine_mat := some (am.1 * m) }

/-- `Image.set_sample(**kwargs)`: replaces `sample_kwargs`. -/
def Image.set_sample (img : Image) (kw : SampleKw) : Image :=
  { img with sample_kwargs := kw }

/-- `ImageBase.clone`: builds a fresh `Image` from `self.data.clone()`.
Reading `self.data` goes through the `px` getter and therefore *refreshes
the original*; the pair returned is (the clone, the original as the caller
now sees it). -/
def Image.clone (env : TorchEnv) (img : Image) : Image × Image :=
  let r := img.refresh env
  (Image.mk r.c r.h r.w r._px none none none (SampleKw.mk none none), r)

/-- `Image.resize(size)`: asserts that no flow field is pending (the spec
calls this failure InvalidState), widens an `int` size to
`(shape[0], size, size)`, and sets `flow = affine_grid(size)`. -/
def Image.resize (img : Image) (size : ℕ ⊕ (ℕ × ℕ × ℕ)) :
    Except TransformError Image :=
  if img._flow.isSome then .error .invalidState
  else
    let sz : ℕ × ℕ × ℕ := match size with
      | .inl n => (img.c, n, n)
      | .inr t => t
    .ok { img with _flow := some (affine_grid sz.1 sz.2.1 sz.2.2) }

/-- A raw or resolved argument value: a scalar or a list (distribution
parameters such as `change=(0, 1)` are lists). -/
abbrev Val : Type := ℚ ⊕ List ℚ

/-- A keyword-argument mapping, in Python dict insertion order. -/
abbrev Kw : Type := List (String × Val)

/-- A distribution generator (the annotation value of a random parameter):
takes the positional arguments unpacked from `listify(v)` and the random
source, returns the drawn value and the advanced source. -/
abbrev Gen : Type := List ℚ → RandSrc → ℚ × RandSrc

/-- Python dict merge `{**a, **b}`: `a`'s keys in order with values
overridden by `b`, then `b`'s new keys in order. -/
def mergeKw (a b : Kw) : Kw :=
  a.map (fun kv =>
    match b.find? (fun kv2 => kv2.1 == kv.1) with
    | some kv2 => (kv.1, kv2.2)
    | none => kv) ++
  b.filter (fun kv2 => !(a.any (fun kv => kv.1 == kv2.1)))

/-- `listify(p, q)`: `None` becomes `[]`, a non-iterable scalar is wrapped,
`n` is `q` itself when `q` is an int, `len(p)` when `q` is `None`, else
`len(q)`; a length-1 `p` is broadcast by `p * n`; then
`assert len(p)==n` — the spec's ShapeMismatch error. -/
def listify (p : Option Val) (q : Option (ℕ ⊕ List ℚ)) :
    Except TransformError (List ℚ) :=
  let p1 : List ℚ := match p with
    | none => []
    | some (.inl x) => [x]
    | some (.inr xs) => xs
  let n : ℕ := match q with
    | some (.inl k) => k
    | none => p1.length
    | some (.inr xs) => xs.length
  let p2 : List ℚ := match p1 with
    | [x] => List.replicate n x
    | _ => p1
  if p2.length = n then .ok p2 else .error .shapeMismatch

/-- `uniform(low, high)` (the scalar, `size=None` path used by `resolve`):
CPython's `random.uniform(a, b)` returns `a + (b - a) * random()`, consuming
one draw of the random source. -/
def uniform (low high : ℚ) (s : RandSrc) : ℚ × RandSrc :=
  (low + (high - low) * s 0, fun n => s (n + 1))

/-- `rand_bool(p)`: `uniform(0, 1) < p`. -/
def rand_bool (p : ℚ) (s : RandSrc) : Bool × RandSrc :=
  let u := uniform 0 1 s
  (decide (u.1 < p), u.2)

/-- The category tag of a Transform class: its `_wrap` attribute
(`None` for the base class, which calls `func` on the item directly). -/
inductive Wrap where
  | lighting
  | pixel
  | coord
  | affine
  | direct

/-- A Transform Descriptor: a registered transform.  `order` is the ordering
priority, `oid` models Python object identity (the descriptor is the
dictionary key of `apply_tfms`'s `xtra`), `def_args` the parameter defaults
extracted from the signature, `params` the random-distribution annotations,
and `funcL`/`funcP`/`funcC`/`funcA`/`funcD` the wrapped pure function as it
is used by the category dispatch of `calc` (only the field matching `wrap`
is ever read; the keyword arguments are supplied at call time). -/
structure Transform where
  order : Int
  oid : ℕ
  wrap : Wrap
  def_args : Kw
  params : List (String × Gen)
  funcL : Kw → PxFn → PxFn
  funcP : Kw → PxFn → PxFn
  funcC : Kw → FlowF → ℕ × ℕ × ℕ → FlowF
  funcA : Kw → Mat3
  funcD : Kw → Image → Image

/-- `Transform.calc(x, ...)`: dispatches through `_wrap` to the matching
`Image` accessor, or calls `func` on the item directly when `_wrap` is
`None`. -/
def Transform.calc (env : TorchEnv) (t : Transform) (x : Image) (kw : Kw) :
    Image :=
  match t.wrap with
  | .lighting => x.lighting env (t.funcL kw)
  | .pixel => x.pixel env (t.funcP kw)
  | .coord => x.coord (t.funcC kw)
  | .affine => x.affine (t.funcA kw)
  | .direct => t.funcD kw x

/-- A Randomized Transform Instance (the `RandTransform` dataclass): a
descriptor, raw keyword arguments, probability of application, the resolved
mapping, the `do_run` flag and the `is_random` flag. -/
structure RandTransform where
  tfm : Transform
  kwargs : Kw
  p : ℚ
  resolved : Kw
  do_run : Bool
  is_random : Bool

/-- `Transform.__call__` with no positional arguments: constructs a
`RandTransform` carrying the keyword arguments; the dataclass defaults give
`resolved = {}` and `do_run = True`. -/
def Transform.mkRand (t : Transform) (kwargs : Kw) (p : ℚ)
    (is_random : Bool) : RandTransform :=
  RandTransform.mk t kwargs p [] true is_random

/-- The parameter-resolution passes of `RandTransform.resolve` (the
`is_random` branch, everything before the final `do_run` draw):
1. each raw keyword argument whose name is annotated is sampled by calling
   its generator on `listify(v)` (with `q=None`, `listify` never trips its
   length assert, so the error branch below is unreachable); unannotated
   raw arguments pass through verbatim;
2. defaults fill parameters not yet resolved;
3. leftover annotated parameters are sampled with no arguments. -/
def resolveParams (rt : RandTransform) (s : RandSrc) : Kw × RandSrc :=
  let p1 := rt.kwargs.foldl
    (fun (acc : Kw × RandSrc) kv =>
      match (rt.tfm.params.find? (fun pr => pr.1 == kv.1)).map Prod.snd with
      | some rand_func =>
        let args := (listify (some kv.2) none).toOption.getD []
        let d := rand_func args acc.2
        (acc.1 ++ [(kv.1, Sum.inl d.1)], d.2)
      | none => (acc.1 ++ [kv], acc.2))
    (([] : Kw), s)
  let r2 := rt.tfm.def_args.foldl
    (fun (acc : Kw) kv =>
      if acc.any (fun kv2 => kv2.1 == kv.1) then acc else acc ++ [kv])
    p1.1
  rt.tfm.params.foldl
    (fun (acc : Kw × RandSrc) pr =>
      if acc.1.any (fun kv2 => kv2.1 == pr.1) then acc
      else
        let d := pr.2 [] acc.2
        (acc.1 ++ [(pr.1, Sum.inl d.1)], d.2))
    (r2, p1.2)

/-- `RandTransform.resolve()`: when `is_random` is false, `resolved` is
`{**def_args, **kwargs}` and nothing else changes; otherwise the parameters
are resolved (fresh draws) and then `do_run = rand_bool(p)` is drawn. -/
def RandTransform.resolve (rt : RandTransform) (s : RandSrc) :
    RandTransform × RandSrc :=
  if rt.is_random = false then
    ({ rt with resolved := mergeKw rt.tfm.def_args rt.kwargs }, s)
  else
    let pr := resolveParams rt s
    let b := rand_bool rt.p pr.2
    ({ rt with resolved := pr.1, do_run := b.1 }, b.2)

/-- `RandTransform.__call__(x, **kwargs)`: applies the descriptor with
`{**resolved, **kwargs}` if `do_run`, else returns the image unchanged. -/
def RandTransform.call (env : TorchEnv) (rt : RandTransform) (x : Image)
    (kwargs : Kw) : Image :=
  if rt.do_run then rt.tfm.calc env x (mergeKw rt.resolved kwargs) else x

/-- `resolve_tfms(tfms)`: resolves every instance in list order, threading
the random source. -/
def resolve_tfms (ts : List RandTransform) (s : RandSrc) :
    List RandTransform × RandSrc :=
  ts.foldl
    (fun (acc : List RandTransform × RandSrc) t =>
      let r := t.resolve acc.2
      (acc.1 ++ [r.1], r.2))
    (([] : List RandTransform), s)

/-- Stable insertion of one element into a sorted list.  Here `a` comes
earlier in the original list than everything in the sorted tail, so it is
placed before the first element it compares `le` to; equal keys therefore
keep their original relative order. -/
def insertSorted (le : RandTransform → RandTransform → Bool)
    (a : RandTransform) : List RandTransform → List RandTransform
  | [] => [a]
  | b :: bs => if le a b then a :: b :: bs else b :: insertSorted le a bs

/-- Python's stable `sorted`: a structural stable insertion sort.  For the
total preorder used by `apply_tfms` (comparison of `tfm.order`) the stable
sorted permutation is unique, so this agrees with any other stable sort. -/
def sortedStable (le : RandTransform → RandTransform → Bool) :
    List RandTransform → List RandTransform
  | [] => []
  | a :: as => insertSorted le a (sortedStable le as)

/-- The `size` argument of `apply_tfms`/`resize`: an int or a
`(channels, height, width)` triple. -/
abbrev Size : Type := ℕ ⊕ (ℕ × ℕ × ℕ)

/-- Python truthiness of the `size` argument: absent and the int `0` are
falsy; a tuple is truthy. -/
def sizeTruthy : Option Size → Bool
  | none => false
  | some (.inl n) => decide (n ≠ 0)
  | some (.inr _) => true

/-- The resize step of `apply_tfms`: `if size: x.resize(size)`. -/
def maybeResize (x : Image) (size : Option Size) :
    Except TransformError Image :=
  match size with
  | some sz => if sizeTruthy (some sz) then x.resize sz else .ok x
  | none => .ok x

/-- The per-transform keyword arguments of the `apply_tfms` loop: `xtra`
lookup by descriptor identity, `{}` when absent. -/
def xtraKw (xtra : List (ℕ × Kw)) (t : RandTransform) : Kw :=
  match xtra.find? (fun pr => pr.1 == t.tfm.oid) with
  | some pr => pr.2
  | none => []

/-- The Pipeline Executor `apply_tfms(tfms, x, do_resolve, xtra, size,
**kwargs)` (the later, effective definition in the source, which shadows the
earlier one).  Returns the pair (the caller's original image as the call
leaves it, the result).  If both `tfms` and `size` are falsy the input is
returned unchanged and not cloned.  Otherwise the list is stably sorted by
descriptor order, resolved when `do_resolve`, and the *clone* of `x` — whose
construction reads `x.data` and therefore refreshes `x` — receives
`set_sample`, the resize, and the transforms in sorted order. -/
def apply_tfms (env : TorchEnv) (tfms : List RandTransform) (x : Image)
    (do_resolve : Bool) (xtra : List (ℕ × Kw)) (size : Option Size)
    (kwargs : Option SampleKw) (s : RandSrc) :
    Image × Except TransformError Image :=
  if tfms.isEmpty && !(sizeTruthy size) then (x, .ok x)
  else
    let ts := sortedStable (fun a b => decide (a.tfm.order ≤ b.tfm.order)) tfms
    let rs := if do_resolve then resolve_tfms ts s else (ts, s)
    let ci := x.clone env
    let x1 := match kwargs with
      | some kw => ci.1.set_sample kw
      | none => ci.1
    (ci.2,
      match maybeResize x1 size with
      | .error e => .error e
      | .ok x2 => .ok (rs.1.foldl (fun im t => t.call env im (xtraKw xtra t)) x2))

/-! Concrete fixtures used by counterexamples and witnesses. -/

/-- A concrete environment: the identity stands in for the external
elementwise functions and the external interpolated sampler (none of the
statements below depend on their values). -/
def envEx : TorchEnv := TorchEnv.mk id id (fun _ _ px _ _ _ => px)

/-- A random source all of whose `random()` draws are `0`. -/
def sZero : RandSrc := fun _ => 0

/-- A random source all of whose `random()` draws are `1/2`. -/
def sHalf : RandSrc := fun _ => 1 / 2

/-- A pixel-category descriptor whose wrapped function is the identity. -/
def idTfm : Transform :=
  Transform.mk TfmPixel_order 0 Wrap.pixel [] []
    (fun _ px => px) (fun _ px => px) (fun _ f _ => f) (fun _ => 1) (fun _ x => x)

/-- A freshly constructed (never resolved) instance of `idTfm`, `p = 1`. -/
def idRT : RandTransform := Transform.mkRand idTfm [] 1 true

/-- `idTfm` with `p = 0`, never resolved. -/
def rt0 : RandTransform := Transform.mkRand idTfm [] 0 true

/-- `idTfm` with `p = 1`, never resolved. -/
def rt1 : RandTransform := Transform.mkRand idTfm [] 1 true

/-- A 1×1×2 pixel buffer holding `[3, 7]`. -/
def pxTwo : PxFn := fun _ _ j => if j = 0 then 3 else 7

/-- A 1×1×3 pixel buffer holding `[10, 20, 30]`. -/
def pxThree : PxFn := fun _ _ j => if j = 0 then 10 else if j = 1 then 20 else 30

/-- A 1×2 flow field that swaps the two columns (x = 0 fetches column 1,
x = -1 fetches column 0 under the nearest sampler's `(x+1)*w/2` scaling). -/
def flowSwap : FlowF := FlowF.mk 1 2 (fun _ j => (if j = 0 then 0 else -1, -1))

/-- An image with a *pending* flow field (`flowSwap`) and nearest-mode
sample kwargs: deferred geometry not yet materialized. -/
def imgPend : Image :=
  Image.mk 1 1 2 pxTwo none (some flowSwap) none (SampleKw.mk (some "nearest") none)

/-- An image with no pending deferred state. -/
def imgClean : Image :=
  Image.mk 1 1 2 pxTwo none none none (SampleKw.mk none none)

/-- Helper: the nearest sampler reads its `padding_mode` only through the
comparison with `"zeros"`, so any two non-`"zeros"` modes coincide. -/
theorem gsn_eq_of_ne_zeros (h w : ℕ) (px : PxFn) (f : FlowF) (pm1 pm2 : String)
    (h1 : pm1 ≠ "zeros") (h2 : pm2 ≠ "zeros") :
    grid_sample_nearest h w px f pm1 = grid_sample_nearest h w px f pm2 := by
  funext ch i j
  simp [grid_sample_nearest, h1, h2]

/-! Claim theorems. -/

/-- Claim C1, counterexample.  The claim orders the category priorities as
affine < coord < pixel-padding < pixel < lighting; on the registered
constants (`TfmAffine.order = 5`, `TfmCoord.order = 4`, `pad` at `-10`,
`TfmPixel.order = 10`, `TfmLighting.order = 8`) that chain is false —
already its first comparison fails, since 5 is not below 4. -/
theorem c1_order_claim_counterexample :
    ¬(TfmAffine_order < TfmCoord_order ∧ TfmCoord_order < pad_order ∧
      pad_order < TfmPixel_order ∧ TfmPixel_order < TfmLighting_order) := by
  decide

/-- Claim C1, amended.  The registered ordering priorities satisfy
pixel-padding < coord < affine < lighting < pixel (lower runs first), so the
pipeline's stable sort by `tfm.order` applies padding first, then coordinate
warps, then affine transforms, then lighting, then the other pixel
transforms, regardless of caller-supplied list order. -/
theorem c1_order_amended :
    pad_order < TfmCoord_order ∧ TfmCoord_order < TfmAffine_order ∧
    TfmAffine_order < TfmLighting_order ∧ TfmLighting_order < TfmPixel_order := by
  decide

/-- Claim C2, counterexample.  The spec says a Resampler call in nearest
mode with reflect edge handling fails with UnsupportedConfig; the
spec-worded `grid_sample_spec` indeed errors on this concrete input, but the
source's `grid_sample` reaches no raise site there and returns a defined
pixel value (3, the pixel the identity grid selects). -/
theorem c2_nearest_reflect_counterexample :
    grid_sample_spec envEx 1 2 pxTwo (affine_grid 1 1 2)
      (SampleKw.mk (some "nearest") (some "reflect")) =
      .error .unsupportedConfig ∧
    grid_sample envEx 1 2 pxTwo (affine_grid 1 1 2)
      (SampleKw.mk (some "nearest") (some "reflect")) 0 0 0 = 3 := by
  constructor
  · rfl
  · norm_num [grid_sample, grid_sample_nearest, affine_grid, linVal, roundHE,
      pxTwo]

/-- Claim C2, amended.  A Resampler call in nearest mode with reflect edge
handling does not fail: `grid_sample` renames reflect to reflection and
dispatches to the nearest path, which ignores that mode and clamps rounded
coordinates into range — exactly the behavior of border mode. -/
theorem c2_nearest_reflect_amended :
    ∀ (env : TorchEnv) (h w : ℕ) (px : PxFn) (f : FlowF),
    grid_sample env h w px f (SampleKw.mk (some "nearest") (some "reflect")) =
    grid_sample env h w px f (SampleKw.mk (some "nearest") (some "border")) := by
  intro env h w px f
  simp only [grid_sample, Option.getD_some]
  norm_num
  exact gsn_eq_of_ne_zeros h w px f "reflection" "border" (by decide) (by decide)

/-- Claim C3, counterexample.  An original image that still carries a
pending flow field (`imgPend`, pixels `[3, 7]`, a column-swapping flow,
nearest sampling) is *not* left byte-for-byte unchanged by `apply_tfms`
with a non-empty transform list: the clone's `data` read refreshes the
original, whose pixel (0,0,0) becomes 7 instead of 3. -/
theorem c3_clone_isolation_counterexample :
    (apply_tfms envEx [idRT] imgPend true [] none none sZero).1._px 0 0 0 = 7 ∧
    imgPend._px 0 0 0 = 3 := by
  constructor
  · norm_num [apply_tfms, sortedStable, insertSorted, sizeTruthy, resolve_tfms,
      RandTransform.resolve, resolveParams, rand_bool, uniform, idRT, idTfm,
      imgPend, Transform.mkRand, Image.clone, Image.refresh, Image.flowGet,
      grid_sample, grid_sample_nearest, flowSwap, pxTwo, roundHE, sZero]
  · norm_num [imgPend, pxTwo]

/-- Claim C3, amended.  For every image that carries no pending logit,
flow-field, or affine-matrix state and every transform list, `apply_tfms`
leaves the caller's original image unchanged (in particular its raw pixel
array): only the clone made at the start of the pipeline is mutated.  (If
the original does carry pending state, the clone's `data` read first
materializes that state into the original — the counterexample above.) -/
theorem c3_clone_isolation_amended :
    ∀ (env : TorchEnv) (tfms : List RandTransform) (x : Image) (dr : Bool)
      (xtra : List (ℕ × Kw)) (size : Option Size) (kw : Option SampleKw)
      (s : RandSrc),
    x._logit_px = none → x._flow = none → x._affine_mat = none →
    (apply_tfms env tfms x dr xtra size kw s).1 = x := by
  intro env tfms x dr xtra size kw s h1 h2 h3
  unfold apply_tfms
  split
  · rfl
  · simp [Image.clone, Image.refresh, h1, h2, h3]

/-- Witness for C3 amended: a concrete clean image through a concrete
one-transform pipeline, with every hypothesis discharged. -/
theorem c3_clone_isolation_witness :
    imgClean._logit_px = none ∧
    (apply_tfms envEx [idRT] imgClean true [] none none sZero).1 = imgClean :=
  ⟨rfl,
   c3_clone_isolation_amended envEx [idRT] imgClean true [] none none sZero
     rfl rfl rfl⟩

/-- Claim C4 (confirmed).  The affine accessor composes by
right-multiplication, so applying the affine transform with matrix `mf` and
then the one with matrix `mg` and materializing gives exactly the same image
as materializing after a single affine transform whose matrix is the product
`mf * mg` (exact equality in the rational model, hence pixel equality). -/
theorem c4_affine_composability :
    ∀ (env : TorchEnv) (img : Image) (mf mg : Mat3),
    Image.refresh env ((img.affine mf).affine mg) =
    Image.refresh env (img.affine (mf * mg)) := by
  intro env img mf mg
  have h : (img.affine mf).affine mg = img.affine (mf * mg) := by
    cases hm : img._affine_mat <;>
      simp [Image.affine, Image.affineMatGet, hm, mul_assoc]
  rw [h]

/-- Claim C5 (confirmed).  After any `refresh`, no deferred state is left
pending: the logit buffer, the flow field and the affine matrix of the
refreshed image are all cleared (the flow getter folds a pending matrix into
the flow and clears it; `refresh` then resamples once and clears the flow;
the logit branch flushes through sigmoid and clears the buffer). -/
theorem c5_refresh_reconciles :
    ∀ (env : TorchEnv) (img : Image),
    (Image.refresh env img)._logit_px = none ∧
    (Image.refresh env img)._flow = none ∧
    (Image.refresh env img)._affine_mat = none := by
  intro env img
  unfold Image.refresh
  cases hl : img._logit_px <;> cases ha : img._affine_mat <;>
    cases hf : img._flow <;> simp [Image.flowGet, hl, ha, hf]

/-- Claim C6 (confirmed).  With an empty transform list and no target size,
`apply_tfms` returns the input image itself, unmodified and not cloned
(the pair holds the untouched original and the original as the result). -/
theorem c6_noop_shortcircuit :
    ∀ (env : TorchEnv) (x : Image) (dr : Bool) (xtra : List (ℕ × Kw))
      (kw : Option SampleKw) (s : RandSrc),
    apply_tfms env [] x dr xtra none kw s = (x, .ok x) := by
  intro env x dr xtra kw s
  rfl

/-- Claim C7 (confirmed).  For a Resolver draw with a requested count `n`:
a length-1 argument list is broadcast to `n` copies; otherwise a list whose
length equals `n` passes through, and any other length fails with
ShapeMismatch rather than returning a value. -/
theorem c7_listify_broadcast_or_mismatch :
    ∀ (xs : List ℚ) (n : ℕ),
    (xs.length = 1 →
      listify (some (Sum.inr xs)) (some (Sum.inl n)) =
        .ok (List.replicate n xs.headI)) ∧
    (xs.length ≠ 1 → xs.length = n →
      listify (some (Sum.inr xs)) (some (Sum.inl n)) = .ok xs) ∧
    (xs.length ≠ 1 → xs.length ≠ n →
      listify (some (Sum.inr xs)) (some (Sum.inl n)) =
        .error .shapeMismatch) := by
  intro xs n
  rcases xs with _ | ⟨a, _ | ⟨b, t⟩⟩ <;>
    refine ⟨?_, ?_, ?_⟩ <;> intro h1 <;> simp_all [listify]

/-- Witness for C7: the singleton `[2]` broadcast to a requested count of 3,
and the list `[1, 2]` failing against a requested count of 3. -/
theorem c7_listify_witness :
    listify (some (Sum.inr [2])) (some (Sum.inl 3)) = .ok [2, 2, 2] ∧
    listify (some (Sum.inr [1, 2])) (some (Sum.inl 3)) =
      .error .shapeMismatch :=
  ⟨by simpa using (c7_listify_broadcast_or_mismatch [2] 3).1 rfl,
   (c7_listify_broadcast_or_mismatch [1, 2] 3).2.2 (by norm_num) (by norm_num)⟩

/-- Claim C8 (confirmed).  When `is_random` is true, `resolve()` draws
`do_run = rand_bool(p)` on the random source left after parameter
resolution; since `rand_bool p` is `uniform(0,1) < p` and `random()` lies in
`[0, 1)`, `p = 0` makes `do_run` false and `p = 1` makes it true for every
possible outcome of the underlying draw. -/
theorem c8_do_run_probability_boundary :
    ∀ (rt : RandTransform) (s : RandSrc),
    rt.is_random = true →
    ((rt.resolve s).1.do_run = (rand_bool rt.p (resolveParams rt s).2).1) ∧
    (rt.p = 0 → 0 ≤ (resolveParams rt s).2 0 →
      (rt.resolve s).1.do_run = false) ∧
    (rt.p = 1 → (resolveParams rt s).2 0 < 1 →
      (rt.resolve s).1.do_run = true) := by
  intro rt s hir
  unfold RandTransform.resolve
  rw [hir]
  simp only [Bool.true_eq_false, if_false]
  refine ⟨trivial, ?_, ?_⟩
  · intro hp hu
    simp [rand_bool, uniform, hp, not_lt.2 hu]
  · intro hp hu
    simp [rand_bool, uniform, hp]
    linarith

/-- Witness for C8: with every `random()` draw equal to 1/2, resolving a
`p = 0` instance yields `do_run = false` and resolving a `p = 1` instance
yields `do_run = true`. -/
theorem c8_do_run_witness :
    ((rt0.resolve sHalf).1.do_run = false) ∧
    ((rt1.resolve sHalf).1.do_run = true) :=
  ⟨(c8_do_run_probability_boundary rt0 sHalf rfl).2.1 rfl
     (by norm_num [resolveParams, rt0, idTfm, Transform.mkRand, sHalf]),
   (c8_do_run_probability_boundary rt1 sHalf rfl).2.2 rfl
     (by norm_num [resolveParams, rt1, idTfm, Transform.mkRand, sHalf])⟩

/-- Claim C9, counterexample.  Resampling through the unmodified identity
grid in nearest mode does *not* reproduce the original exactly: for a 1×1×3
input `[10, 20, 30]`, output column 1 gets scaled coordinate
`(0 + 1)·3/2 = 1.5`, which rounds (half to even) to input column 2, so the
output there is 30, not the original 20. -/
theorem c9_identity_roundtrip_counterexample :
    grid_sample_nearest 1 3 pxThree (affine_grid 1 1 3) "reflection" 0 0 1 =
      30 ∧
    pxThree 0 0 1 = 20 := by
  constructor
  · norm_num [grid_sample_nearest, affine_grid, linVal, roundHE, pxThree,
      Int.toNat]
  · norm_num [pxThree]

/-- Claim C9, amended.  `affine_grid` produces the linspace identity grid as
claimed, but nearest-mode resampling through it reproduces the original
pixel array only when every spatial axis has length at most 2 (with the
default reflect — i.e. reflection — edge handling): the nearest sampler
scales by `(x+1)·W/2` rather than `(x+1)·(W−1)/2`, so output index `i`
samples input index `round(i·W/(W−1))`, which shifts indices once an axis
has length 3 or more. -/
theorem c9_identity_roundtrip_amended :
    ∀ (c h w : ℕ) (px : PxFn) (ch i j : ℕ),
    h ≤ 2 → w ≤ 2 → i < h → j < w →
    grid_sample_nearest h w px (affine_grid c h w) "reflection" ch i j =
      px ch i j := by
  intro c h w px ch i j hh hw hi hj
  interval_cases h <;> interval_cases w <;> interval_cases i <;>
    interval_cases j <;>
    norm_num [grid_sample_nearest, affine_grid, linVal, roundHE] <;> simp

/-- Witness for C9 amended: exact round-trip at the corner of a 2×2 image. -/
theorem c9_identity_roundtrip_witness :
    ((2 : ℕ) ≤ 2 ∧ 1 < 2) ∧
    grid_sample_nearest 2 2 pxThree (affine_grid 1 2 2) "reflection" 0 1 1 =
      pxThree 0 1 1 :=
  ⟨⟨by norm_num, by norm_num⟩,
   c9_identity_roundtrip_amended 1 2 2 pxThree 0 1 1 (by norm_num)
     (by norm_num) (by norm_num) (by norm_num)⟩

/-- Claim C10 (confirmed).  A freshly constructed Randomized Transform
Instance on which `resolve()` was never called has the dataclass defaults
`do_run = true` and `resolved = {}`, so calling it on an image applies the
underlying descriptor with exactly the call-site keyword arguments — no
descriptor defaults or random-parameter draws are merged in. -/
theorem c10_unresolved_instance_applies :
    ∀ (env : TorchEnv) (t : Transform) (kwargs : Kw) (p : ℚ) (ir : Bool)
      (x : Image) (extra : Kw),
    RandTransform.call env (Transform.mkRand t kwargs p ir) x extra =
      Transform.calc env t x extra := by
  intro env t kwargs p ir x extra
  simp [RandTransform.call, Transform.mkRand, mergeKw]
